import Mathlib

/-!
Verification of the NatalCARE offline triage engine (`src/logic.ts`).

The core is `assessPatientRisk`: an ordered set of medical threshold rules
accumulating a risk score and a list of reason strings, followed by a tier
mapping from the total score to an `AssessmentResult`.  The predictive
signal (step B of the source) is an awaited call that may throw; it is
modelled here as an `Except String ℚ` argument: `.ok p` is a returned
prediction, `.error msg` is a thrown/unavailable model (the catch branch).
JavaScript numbers are modelled as `Int` for the vitals (all thresholds are
integers) and as `ℚ` for the model probability.
-/

namespace NatalCare

/-- Risk tiers of the engine, totally ordered by severity. -/
inductive RiskLevel where
  | LOW
  | MEDIUM
  | HIGH
  | CRITICAL
  deriving DecidableEq, Repr

/-- Input vitals record (interface `PatientVitals` of `src/logic.ts`). -/
structure PatientVitals where
  systolicBP : Int
  diastolicBP : Int
  proteinuria : Int
  fetalHeartRate : Int
  gestationalAge : Int
  symptoms : List String
  deriving DecidableEq, Repr

/-- Output record (interface `AssessmentResult` of `src/logic.ts`). -/
structure AssessmentResult where
  riskLevel : RiskLevel
  uiColor : String
  action : String
  reasoning : List String
  deriving DecidableEq, Repr

/-- The constant table `THRESHOLDS` of `src/logic.ts`. -/
structure ThresholdTable where
  BP_CRITICAL_SYS : Int
  BP_CRITICAL_DIA : Int
  BP_HIGH_SYS : Int
  BP_HIGH_DIA : Int
  FHR_LOW : Int
  FHR_HIGH : Int
  deriving DecidableEq, Repr

def THRESHOLDS : ThresholdTable :=
  { BP_CRITICAL_SYS := 160
    BP_CRITICAL_DIA := 110
    BP_HIGH_SYS := 140
    BP_HIGH_DIA := 90
    FHR_LOW := 110
    FHR_HIGH := 160 }

/-- Step A, hypertension check: the `if / else if` on blood pressure.
Returns the score contribution and reasons appended by this check. -/
def hypertensionStep (vitals : PatientVitals) : Int × List String :=
  if vitals.systolicBP ≥ THRESHOLDS.BP_CRITICAL_SYS ∨
      vitals.diastolicBP ≥ THRESHOLDS.BP_CRITICAL_DIA then
    (50, ["Severe Hypertension detected (Immediate Referral needed)"])
  else if vitals.systolicBP ≥ THRESHOLDS.BP_HIGH_SYS ∨
      vitals.diastolicBP ≥ THRESHOLDS.BP_HIGH_DIA then
    (20, ["Hypertension detected"])
  else
    (0, [])

/-- Step A, preeclampsia check: fires on the accumulator `acc`
(score so far, reasons so far) when the running score is already ≥ 20
and proteinuria exceeds 1. -/
def preeclampsiaStep (vitals : PatientVitals) (acc : Int × List String) :
    Int × List String :=
  if acc.1 ≥ 20 ∧ vitals.proteinuria > 1 then
    (acc.1 + 40, acc.2 ++ ["Potential Preeclampsia: High BP combined with Proteinuria"])
  else
    acc

/-- Step A, fetal distress check: fires when the fetal heart rate is below
the low bound or above the high bound, interpolating the observed value. -/
def fetalDistressStep (vitals : PatientVitals) (acc : Int × List String) :
    Int × List String :=
  if vitals.fetalHeartRate < THRESHOLDS.FHR_LOW ∨
      vitals.fetalHeartRate > THRESHOLDS.FHR_HIGH then
    (acc.1 + 30,
      acc.2 ++ ["Abnormal Fetal Heart Rate detected: " ++
        toString vitals.fetalHeartRate ++ " bpm"])
  else
    acc

/-- Step A in full: the three deterministic rules in source order. -/
def deterministicRules (vitals : PatientVitals) : Int × List String :=
  fetalDistressStep vitals (preeclampsiaStep vitals (hypertensionStep vitals))

/-- Step B: the `try { await runOfflineModel } catch` block.  A thrown or
unavailable model (`.error`) leaves the accumulator untouched; a returned
prediction adds 15 only when it exceeds 0.75. -/
def aiStep (signal : Except String ℚ) (acc : Int × List String) :
    Int × List String :=
  match signal with
  | .ok aiPrediction =>
      if aiPrediction > 0.75 then
        (acc.1 + 15, acc.2 ++ ["AI Analysis: Pattern matches historical high-risk cases"])
      else
        acc
  | .error _ => acc

/-- Step C: the final tier mapping from the total accumulated score,
highest threshold first, with the fixed LOW-tier reason replacement. -/
def finalAssessment (riskScore : Int) (reasons : List String) : AssessmentResult :=
  if riskScore ≥ 50 then
    { riskLevel := .CRITICAL
      uiColor := "#FF0000"
      action := "EMERGENCY: INITIATE TRANSPORT TO GENERAL HOSPITAL NOW."
      reasoning := reasons }
  else if riskScore ≥ 20 then
    { riskLevel := .HIGH
      uiColor := "#FFA500"
      action := "REFERRAL: Monitor closely and prepare for transport."
      reasoning := reasons }
  else if riskScore ≥ 10 then
    { riskLevel := .MEDIUM
      uiColor := "#FFFF00"
      action := "WARNING: Re-assess vitals in 4 hours."
      reasoning := reasons }
  else
    { riskLevel := .LOW
      uiColor := "#008000"
      action := "STABLE: Continue routine care."
      reasoning := ["Vitals within normal limits"] }

/-- The main logic function `assessPatientRisk` of `src/logic.ts`:
steps A, B, C in order. -/
def assessPatientRisk (vitals : PatientVitals) (signal : Except String ℚ) :
    AssessmentResult :=
  let acc := aiStep signal (deterministicRules vitals)
  finalAssessment acc.1 acc.2

/-- The total accumulated score after steps A and B. -/
def totalScore (vitals : PatientVitals) (signal : Except String ℚ) : Int :=
  (aiStep signal (deterministicRules vitals)).1

/-- The shipped placeholder model `runOfflineModel`: always returns 0.1. -/
def runOfflineModel (_data : PatientVitals) : ℚ := 0.1

/-- `assessPatientRisk` wired to the shipped placeholder model. -/
def assessPatientRiskDefault (vitals : PatientVitals) : AssessmentResult :=
  assessPatientRisk vitals (.ok (runOfflineModel vitals))

/-- Assessment with no predictive signal at all: rules 1–3 alone followed
by the tier mapping (the engine per spec §4.2 when the signal is absent). -/
def assessNoSignal (vitals : PatientVitals) : AssessmentResult :=
  let acc := deterministicRules vitals
  finalAssessment acc.1 acc.2

/-- The display color keyed 1:1 to each tier (spec §4.1: CRITICAL red,
HIGH orange, MEDIUM yellow, LOW green, matching the hex codes of the source). -/
def tierColor : RiskLevel → String
  | .CRITICAL => "#FF0000"
  | .HIGH => "#FFA500"
  | .MEDIUM => "#FFFF00"
  | .LOW => "#008000"

/-- `pat` occurs as a contiguous substring of `s`. -/
def containsSubstr (s pat : String) : Prop :=
  ∃ a b : String, s = a ++ pat ++ b

/-! Helper lemmas shared by the claim theorems. -/

lemma preeclampsiaStep_fst_le (vitals : PatientVitals) (acc : Int × List String) :
    acc.1 ≤ (preeclampsiaStep vitals acc).1 := by
  unfold preeclampsiaStep
  split <;> omega

lemma fetalDistressStep_fst_le (vitals : PatientVitals) (acc : Int × List String) :
    acc.1 ≤ (fetalDistressStep vitals acc).1 := by
  unfold fetalDistressStep
  split <;> omega

lemma aiStep_fst_le (signal : Except String ℚ) (acc : Int × List String) :
    acc.1 ≤ (aiStep signal acc).1 := by
  cases signal with
  | ok p =>
      simp only [aiStep]
      split <;> omega
  | error e => simp [aiStep]

lemma assessPatientRisk_eq (vitals : PatientVitals) (signal : Except String ℚ) :
    assessPatientRisk vitals signal =
      finalAssessment (totalScore vitals signal)
        (aiStep signal (deterministicRules vitals)).2 := rfl

lemma assessNoSignal_eq (vitals : PatientVitals) :
    assessNoSignal vitals =
      finalAssessment (deterministicRules vitals).1 (deterministicRules vitals).2 := rfl

lemma hypertensionStep_fst_le_totalScore (vitals : PatientVitals)
    (signal : Except String ℚ) :
    (hypertensionStep vitals).1 ≤ totalScore vitals signal :=
  le_trans (preeclampsiaStep_fst_le vitals (hypertensionStep vitals))
    (le_trans
      (fetalDistressStep_fst_le vitals (preeclampsiaStep vitals (hypertensionStep vitals)))
      (aiStep_fst_le signal (deterministicRules vitals)))

lemma finalAssessment_critical (s : Int) (r : List String) (h : s ≥ 50) :
    (finalAssessment s r).riskLevel = RiskLevel.CRITICAL := by
  unfold finalAssessment
  rw [if_pos h]

lemma finalAssessment_reasoning_of_critical (s : Int) (r : List String) (h : s ≥ 50) :
    (finalAssessment s r).reasoning = r := by
  unfold finalAssessment
  rw [if_pos h]

lemma finalAssessment_riskLevel (s : Int) (r : List String) :
    (finalAssessment s r).riskLevel =
      if s ≥ 50 then RiskLevel.CRITICAL
      else if s ≥ 20 then RiskLevel.HIGH
      else if s ≥ 10 then RiskLevel.MEDIUM
      else RiskLevel.LOW := by
  unfold finalAssessment
  split_ifs <;> rfl

lemma fetalDistressStep_mem (vitals : PatientVitals) (acc : Int × List String)
    (x : String) (h : x ∈ acc.2) : x ∈ (fetalDistressStep vitals acc).2 := by
  unfold fetalDistressStep
  split
  · exact List.mem_append_left _ h
  · exact h

lemma aiStep_mem (signal : Except String ℚ) (acc : Int × List String)
    (x : String) (h : x ∈ acc.2) : x ∈ (aiStep signal acc).2 := by
  cases signal with
  | ok p =>
      simp only [aiStep]
      split
      · exact List.mem_append_left _ h
      · exact h
  | error e => exact h

/-! The claim theorems. -/

/-- C1: for every vitals input with systolicBP ≥ 160 or diastolicBP ≥ 110,
`assessPatientRisk` returns riskLevel CRITICAL, regardless of the values of
all other fields and regardless of the predictive signal. -/
theorem critical_hypertension_dominates
    (vitals : PatientVitals) (signal : Except String ℚ)
    (h : vitals.systolicBP ≥ 160 ∨ vitals.diastolicBP ≥ 110) :
    (assessPatientRisk vitals signal).riskLevel = RiskLevel.CRITICAL := by
  have h' : vitals.systolicBP ≥ THRESHOLDS.BP_CRITICAL_SYS ∨
      vitals.diastolicBP ≥ THRESHOLDS.BP_CRITICAL_DIA := h
  have hhyp : (hypertensionStep vitals).1 = 50 := by
    unfold hypertensionStep
    rw [if_pos h']
  have hmono := hypertensionStep_fst_le_totalScore vitals signal
  rw [assessPatientRisk_eq]
  exact finalAssessment_critical _ _ (by omega)

/-- Witness for C1 at systolicBP = 170. -/
theorem critical_hypertension_dominates_witness :
    ((⟨170, 80, 0, 140, 30, []⟩ : PatientVitals).systolicBP ≥ 160 ∨
      (⟨170, 80, 0, 140, 30, []⟩ : PatientVitals).diastolicBP ≥ 110) ∧
    (assessPatientRisk ⟨170, 80, 0, 140, 30, []⟩
        (.error "model unavailable")).riskLevel = RiskLevel.CRITICAL :=
  ⟨Or.inl (by decide),
    critical_hypertension_dominates _ _ (Or.inl (by decide))⟩

/-- C5: when the predictive signal provider throws/is unavailable, the
result of `assessPatientRisk` is identical to assessing the same vitals
with no signal at all, and the score is unaffected. -/
theorem signal_failure_equals_no_signal :
    ∀ (vitals : PatientVitals) (msg : String),
      assessPatientRisk vitals (.error msg) = assessNoSignal vitals ∧
      totalScore vitals (.error msg) = (deterministicRules vitals).1 :=
  fun _ _ => ⟨rfl, rfl⟩

/-- C8: the two hypertension branches are mutually exclusive: the check
contributes exactly one of 50, 20 or 0 and appends at most one of the two
hypertension reasons, never both. -/
theorem hypertension_branches_mutually_exclusive (vitals : PatientVitals) :
    (hypertensionStep vitals =
        (50, ["Severe Hypertension detected (Immediate Referral needed)"]) ∨
      hypertensionStep vitals = (20, ["Hypertension detected"]) ∨
      hypertensionStep vitals = (0, [])) ∧
    ¬("Severe Hypertension detected (Immediate Referral needed)" ∈
        (hypertensionStep vitals).2 ∧
      "Hypertension detected" ∈ (hypertensionStep vitals).2) := by
  unfold hypertensionStep
  split
  · exact ⟨Or.inl rfl, by decide⟩
  · split
    · exact ⟨Or.inr (Or.inl rfl), by decide⟩
    · exact ⟨Or.inr (Or.inr rfl), by decide⟩

/-- C9: `assessPatientRisk` is deterministic: two calls with identical
vitals and identical signal agree on riskLevel, uiColor, action and
reasoning. -/
theorem assessPatientRisk_deterministic
    (v1 v2 : PatientVitals) (s1 s2 : Except String ℚ)
    (hv : v1 = v2) (hs : s1 = s2) :
    (assessPatientRisk v1 s1).riskLevel = (assessPatientRisk v2 s2).riskLevel ∧
    (assessPatientRisk v1 s1).uiColor = (assessPatientRisk v2 s2).uiColor ∧
    (assessPatientRisk v1 s1).action = (assessPatientRisk v2 s2).action ∧
    (assessPatientRisk v1 s1).reasoning = (assessPatientRisk v2 s2).reasoning := by
  subst hv
  subst hs
  exact ⟨rfl, rfl, rfl, rfl⟩

/-- Witness for C9 at a concrete vitals record and signal. -/
theorem assessPatientRisk_deterministic_witness :
    (assessPatientRisk ⟨120, 80, 0, 140, 30, []⟩ (.ok 0.5)).riskLevel =
      (assessPatientRisk ⟨120, 80, 0, 140, 30, []⟩ (.ok 0.5)).riskLevel ∧
    (assessPatientRisk ⟨120, 80, 0, 140, 30, []⟩ (.ok 0.5)).uiColor =
      (assessPatientRisk ⟨120, 80, 0, 140, 30, []⟩ (.ok 0.5)).uiColor ∧
    (assessPatientRisk ⟨120, 80, 0, 140, 30, []⟩ (.ok 0.5)).action =
      (assessPatientRisk ⟨120, 80, 0, 140, 30, []⟩ (.ok 0.5)).action ∧
    (assessPatientRisk ⟨120, 80, 0, 140, 30, []⟩ (.ok 0.5)).reasoning =
      (assessPatientRisk ⟨120, 80, 0, 140, 30, []⟩ (.ok 0.5)).reasoning :=
  assessPatientRisk_deterministic _ _ _ _ rfl rfl

/-- C2: the code performs no input validation.  Out-of-range proteinuria
(9 on a 0–4 scale), and even negative blood pressures, are scored as-is and
produce an ordinary `AssessmentResult`; nothing is rejected with a
validation error before scoring (the return type has no error channel at
all). -/
theorem no_validation_out_of_range_scored :
    assessPatientRisk ⟨120, 80, 9, 140, 30, []⟩ (.error "model unavailable") =
      { riskLevel := RiskLevel.LOW
        uiColor := "#008000"
        action := "STABLE: Continue routine care."
        reasoning := ["Vitals within normal limits"] } ∧
    (assessPatientRisk ⟨150, 95, 9, 140, 30, []⟩
        (.error "model unavailable")).riskLevel = RiskLevel.CRITICAL ∧
    (assessPatientRisk ⟨-50, -10, 0, 140, 30, []⟩
        (.error "model unavailable")).riskLevel = RiskLevel.LOW := by
  refine ⟨by decide, by decide, by decide⟩

/-- C4: whenever the total accumulated score is below 10 the engine returns
the LOW result, whose reasoning is exactly the fixed "within normal limits"
message; any accumulated reasons are unconditionally discarded at this
tier. -/
theorem low_tier_replaces_reasons :
    (∀ (s : Int) (r : List String), s < 10 →
      finalAssessment s r =
        { riskLevel := RiskLevel.LOW
          uiColor := "#008000"
          action := "STABLE: Continue routine care."
          reasoning := ["Vitals within normal limits"] }) ∧
    (∀ (vitals : PatientVitals) (signal : Except String ℚ),
      totalScore vitals signal < 10 →
      assessPatientRisk vitals signal =
        { riskLevel := RiskLevel.LOW
          uiColor := "#008000"
          action := "STABLE: Continue routine care."
          reasoning := ["Vitals within normal limits"] }) := by
  constructor
  · intro s r h
    unfold finalAssessment
    rw [if_neg (by omega), if_neg (by omega), if_neg (by omega)]
  · intro vitals signal h
    rw [assessPatientRisk_eq]
    unfold finalAssessment
    rw [if_neg (by omega), if_neg (by omega), if_neg (by omega)]

/-- Witness for C4: the replacement fires at score 5 with a non-empty
stale reasons list, and on a concrete normal vitals record. -/
theorem low_tier_replaces_reasons_witness :
    ((5 : Int) < 10 ∧
      finalAssessment 5 ["stale reason"] =
        { riskLevel := RiskLevel.LOW
          uiColor := "#008000"
          action := "STABLE: Continue routine care."
          reasoning := ["Vitals within normal limits"] }) ∧
    (totalScore ⟨120, 80, 0, 140, 30, []⟩ (.error "na") < 10 ∧
      assessPatientRisk ⟨120, 80, 0, 140, 30, []⟩ (.error "na") =
        { riskLevel := RiskLevel.LOW
          uiColor := "#008000"
          action := "STABLE: Continue routine care."
          reasoning := ["Vitals within normal limits"] }) :=
  ⟨⟨by decide, low_tier_replaces_reasons.1 5 ["stale reason"] (by decide)⟩,
    ⟨by decide, low_tier_replaces_reasons.2 ⟨120, 80, 0, 140, 30, []⟩
      (.error "na") (by decide)⟩⟩

/-- C6: the tier mapping has lower-closed boundaries (score 50 → CRITICAL,
20 → HIGH, 10 → MEDIUM, 9 → LOW) and the display color of every result is
keyed 1:1 to its tier (CRITICAL red, HIGH orange, MEDIUM yellow,
LOW green). -/
theorem tier_boundaries_closed_and_colors_keyed :
    (∀ r : List String, (finalAssessment 50 r).riskLevel = RiskLevel.CRITICAL) ∧
    (∀ r : List String, (finalAssessment 20 r).riskLevel = RiskLevel.HIGH) ∧
    (∀ r : List String, (finalAssessment 10 r).riskLevel = RiskLevel.MEDIUM) ∧
    (∀ r : List String, (finalAssessment 9 r).riskLevel = RiskLevel.LOW) ∧
    (∀ (s : Int) (r : List String),
      (finalAssessment s r).uiColor = tierColor (finalAssessment s r).riskLevel) := by
  refine ⟨fun r => ?_, fun r => ?_, fun r => ?_, fun r => ?_, fun s r => ?_⟩
  · rw [finalAssessment_riskLevel]; decide
  · rw [finalAssessment_riskLevel]; decide
  · rw [finalAssessment_riskLevel]; decide
  · rw [finalAssessment_riskLevel]; decide
  · unfold finalAssessment tierColor
    split_ifs <;> rfl

/-- C3: the preeclampsia rule adds 40 and appends its reason exactly when
the score from the preceding hypertension check is ≥ 20 and proteinuria
exceeds 1; and for every vitals input with systolicBP 150, diastolicBP 95,
proteinuria 2 the total score is at least 60, the tier is CRITICAL, and
the reasons contain both the "Hypertension detected" reason and the
preeclampsia reason. -/
theorem preeclampsia_rule_correct :
    (∀ vitals : PatientVitals,
      ((preeclampsiaStep vitals (hypertensionStep vitals)).1 =
          (hypertensionStep vitals).1 + 40 ∧
        "Potential Preeclampsia: High BP combined with Proteinuria" ∈
          (preeclampsiaStep vitals (hypertensionStep vitals)).2) ↔
      ((hypertensionStep vitals).1 ≥ 20 ∧ vitals.proteinuria > 1)) ∧
    (∀ (fhr ga : Int) (sym : List String) (signal : Except String ℚ),
      totalScore ⟨150, 95, 2, fhr, ga, sym⟩ signal ≥ 60 ∧
      (assessPatientRisk ⟨150, 95, 2, fhr, ga, sym⟩ signal).riskLevel =
        RiskLevel.CRITICAL ∧
      "Hypertension detected" ∈
        (assessPatientRisk ⟨150, 95, 2, fhr, ga, sym⟩ signal).reasoning ∧
      "Potential Preeclampsia: High BP combined with Proteinuria" ∈
        (assessPatientRisk ⟨150, 95, 2, fhr, ga, sym⟩ signal).reasoning) := by
  constructor
  · intro vitals
    constructor
    · rintro ⟨hscore, -⟩
      by_contra hnot
      unfold preeclampsiaStep at hscore
      rw [if_neg hnot] at hscore
      omega
    · intro h
      unfold preeclampsiaStep
      rw [if_pos h]
      exact ⟨rfl, by simp⟩
  · intro fhr ga sym signal
    have hc1 : ¬((⟨150, 95, 2, fhr, ga, sym⟩ : PatientVitals).systolicBP ≥
        THRESHOLDS.BP_CRITICAL_SYS ∨
        (⟨150, 95, 2, fhr, ga, sym⟩ : PatientVitals).diastolicBP ≥
        THRESHOLDS.BP_CRITICAL_DIA) := by
      show ¬((150 : Int) ≥ 160 ∨ (95 : Int) ≥ 110)
      decide
    have hc2 : (⟨150, 95, 2, fhr, ga, sym⟩ : PatientVitals).systolicBP ≥
        THRESHOLDS.BP_HIGH_SYS ∨
        (⟨150, 95, 2, fhr, ga, sym⟩ : PatientVitals).diastolicBP ≥
        THRESHOLDS.BP_HIGH_DIA := by
      show (150 : Int) ≥ 140 ∨ (95 : Int) ≥ 90
      decide
    have hhyp : hypertensionStep ⟨150, 95, 2, fhr, ga, sym⟩ =
        (20, ["Hypertension detected"]) := by
      unfold hypertensionStep
      rw [if_neg hc1, if_pos hc2]
    have hc3 : ((20 : Int), ["Hypertension detected"]).1 ≥ 20 ∧
        (⟨150, 95, 2, fhr, ga, sym⟩ : PatientVitals).proteinuria > 1 := by
      show (20 : Int) ≥ 20 ∧ (2 : Int) > 1
      decide
    have hpre : preeclampsiaStep ⟨150, 95, 2, fhr, ga, sym⟩
        (20, ["Hypertension detected"]) =
        (60, ["Hypertension detected",
          "Potential Preeclampsia: High BP combined with Proteinuria"]) := by
      unfold preeclampsiaStep
      rw [if_pos hc3]
      decide
    have hdet : deterministicRules ⟨150, 95, 2, fhr, ga, sym⟩ =
        fetalDistressStep ⟨150, 95, 2, fhr, ga, sym⟩
          (60, ["Hypertension detected",
            "Potential Preeclampsia: High BP combined with Proteinuria"]) := by
      unfold deterministicRules
      rw [hhyp, hpre]
    have hdf : (60 : Int) ≤ (deterministicRules ⟨150, 95, 2, fhr, ga, sym⟩).1 := by
      rw [hdet]
      exact fetalDistressStep_fst_le _ _
    have hts : (60 : Int) ≤ totalScore ⟨150, 95, 2, fhr, ga, sym⟩ signal :=
      le_trans hdf (aiStep_fst_le _ _)
    have hmem : ∀ x : String,
        x ∈ ["Hypertension detected",
          "Potential Preeclampsia: High BP combined with Proteinuria"] →
        x ∈ (aiStep signal (deterministicRules ⟨150, 95, 2, fhr, ga, sym⟩)).2 := by
      intro x hx
      apply aiStep_mem
      rw [hdet]
      exact fetalDistressStep_mem _ _ _ hx
    refine ⟨hts, ?_, ?_, ?_⟩
    · rw [assessPatientRisk_eq]
      exact finalAssessment_critical _ _ (by omega)
    · rw [assessPatientRisk_eq,
        finalAssessment_reasoning_of_critical _ _ (by omega)]
      exact hmem _ (by decide)
    · rw [assessPatientRisk_eq,
        finalAssessment_reasoning_of_critical _ _ (by omega)]
      exact hmem _ (by decide)

/-- C7: the fetal distress rule adds 30 and appends a reason interpolating
the literal observed heart rate exactly when fetalHeartRate < 110 or
fetalHeartRate > 160; and for every vitals input with fetalHeartRate 100,
blood pressure below the high thresholds and proteinuria ≤ 1, the rules
score is 30, the tier is HIGH, and a reason contains the substring
"100". -/
theorem fetal_distress_rule_correct :
    (∀ (vitals : PatientVitals) (acc : Int × List String),
      (vitals.fetalHeartRate < 110 ∨ vitals.fetalHeartRate > 160 →
        fetalDistressStep vitals acc =
          (acc.1 + 30, acc.2 ++ ["Abnormal Fetal Heart Rate detected: " ++
            toString vitals.fetalHeartRate ++ " bpm"])) ∧
      (¬(vitals.fetalHeartRate < 110 ∨ vitals.fetalHeartRate > 160) →
        fetalDistressStep vitals acc = acc)) ∧
    (∀ (sys dia prot ga : Int) (sym : List String),
      sys < 140 → dia < 90 → prot ≤ 1 →
      (deterministicRules ⟨sys, dia, prot, 100, ga, sym⟩).1 = 30 ∧
      (assessNoSignal ⟨sys, dia, prot, 100, ga, sym⟩).riskLevel = RiskLevel.HIGH ∧
      ∃ r ∈ (assessNoSignal ⟨sys, dia, prot, 100, ga, sym⟩).reasoning,
        containsSubstr r "100") := by
  constructor
  · intro vitals acc
    constructor
    · intro h
      unfold fetalDistressStep
      rw [if_pos
        (show vitals.fetalHeartRate < THRESHOLDS.FHR_LOW ∨
          vitals.fetalHeartRate > THRESHOLDS.FHR_HIGH from h)]
    · intro h
      unfold fetalDistressStep
      rw [if_neg
        (show ¬(vitals.fetalHeartRate < THRESHOLDS.FHR_LOW ∨
          vitals.fetalHeartRate > THRESHOLDS.FHR_HIGH) from h)]
  · intro sys dia prot ga sym h1 h2 h3
    have hc1 : ¬((⟨sys, dia, prot, 100, ga, sym⟩ : PatientVitals).systolicBP ≥
        THRESHOLDS.BP_CRITICAL_SYS ∨
        (⟨sys, dia, prot, 100, ga, sym⟩ : PatientVitals).diastolicBP ≥
        THRESHOLDS.BP_CRITICAL_DIA) := by
      show ¬(sys ≥ 160 ∨ dia ≥ 110)
      omega
    have hc2 : ¬((⟨sys, dia, prot, 100, ga, sym⟩ : PatientVitals).systolicBP ≥
        THRESHOLDS.BP_HIGH_SYS ∨
        (⟨sys, dia, prot, 100, ga, sym⟩ : PatientVitals).diastolicBP ≥
        THRESHOLDS.BP_HIGH_DIA) := by
      show ¬(sys ≥ 140 ∨ dia ≥ 90)
      omega
    have hhyp : hypertensionStep ⟨sys, dia, prot, 100, ga, sym⟩ = (0, []) := by
      unfold hypertensionStep
      rw [if_neg hc1, if_neg hc2]
    have hc3 : ¬(((0 : Int), ([] : List String)).1 ≥ 20 ∧
        (⟨sys, dia, prot, 100, ga, sym⟩ : PatientVitals).proteinuria > 1) := by
      show ¬((0 : Int) ≥ 20 ∧ prot > 1)
      omega
    have hpre : preeclampsiaStep ⟨sys, dia, prot, 100, ga, sym⟩ (0, []) = (0, []) := by
      unfold preeclampsiaStep
      rw [if_neg hc3]
    have hc4 : (⟨sys, dia, prot, 100, ga, sym⟩ : PatientVitals).fetalHeartRate <
        THRESHOLDS.FHR_LOW ∨
        (⟨sys, dia, prot, 100, ga, sym⟩ : PatientVitals).fetalHeartRate >
        THRESHOLDS.FHR_HIGH := by
      show (100 : Int) < 110 ∨ (100 : Int) > 160
      decide
    have hfetal : fetalDistressStep ⟨sys, dia, prot, 100, ga, sym⟩ (0, []) =
        (30, ["Abnormal Fetal Heart Rate detected: 100 bpm"]) := by
      unfold fetalDistressStep
      rw [if_pos hc4]
      show ((0 : Int) + 30,
        ([] : List String) ++ ["Abnormal Fetal Heart Rate detected: " ++
          toString (100 : Int) ++ " bpm"]) = _
      decide
    have hdet : deterministicRules ⟨sys, dia, prot, 100, ga, sym⟩ =
        (30, ["Abnormal Fetal Heart Rate detected: 100 bpm"]) := by
      unfold deterministicRules
      rw [hhyp, hpre, hfetal]
    refine ⟨by rw [hdet], ?_, ?_⟩
    · rw [assessNoSignal_eq, hdet]
      decide
    · rw [assessNoSignal_eq, hdet]
      refine ⟨"Abnormal Fetal Heart Rate detected: 100 bpm", by decide,
        "Abnormal Fetal Heart Rate detected: ", " bpm", by decide⟩

/-- Witness for C7 at a fully concrete normal-BP record with heart
rate 100. -/
theorem fetal_distress_rule_correct_witness :
    (deterministicRules ⟨120, 80, 0, 100, 30, []⟩).1 = 30 ∧
    (assessNoSignal ⟨120, 80, 0, 100, 30, []⟩).riskLevel = RiskLevel.HIGH ∧
    ∃ r ∈ (assessNoSignal ⟨120, 80, 0, 100, 30, []⟩).reasoning,
      containsSubstr r "100" :=
  fetal_distress_rule_correct.2 120 80 0 30 [] (by decide) (by decide) (by decide)

lemma deterministicRules_fst_cases (vitals : PatientVitals) :
    (deterministicRules vitals).1 = 0 ∨ (deterministicRules vitals).1 = 20 ∨
    (deterministicRules vitals).1 = 30 ∨ (deterministicRules vitals).1 = 50 ∨
    (deterministicRules vitals).1 = 60 ∨ (deterministicRules vitals).1 = 80 ∨
    (deterministicRules vitals).1 = 90 ∨ (deterministicRules vitals).1 = 120 := by
  unfold deterministicRules fetalDistressStep preeclampsiaStep hypertensionStep
  split_ifs <;> norm_num at *

/-- C10: with the shipped placeholder model (always 0.1, never above 0.75)
the MEDIUM tier is unreachable: for every vitals input the returned tier is
one of LOW, HIGH, CRITICAL, because the achievable total score never lies
in the interval [10, 20). -/
theorem medium_unreachable_with_default_model (vitals : PatientVitals) :
    (assessPatientRiskDefault vitals).riskLevel ≠ RiskLevel.MEDIUM ∧
    (assessPatientRiskDefault vitals).riskLevel ∈
      [RiskLevel.LOW, RiskLevel.HIGH, RiskLevel.CRITICAL] ∧
    ¬(10 ≤ totalScore vitals (.ok (runOfflineModel vitals)) ∧
      totalScore vitals (.ok (runOfflineModel vitals)) < 20) := by
  have h01 : ¬((0.1 : ℚ) > 0.75) := by norm_num
  have hai : ∀ acc : Int × List String,
      aiStep (.ok (runOfflineModel vitals)) acc = acc := by
    intro acc
    show (if (0.1 : ℚ) > 0.75 then
      (acc.1 + 15,
        acc.2 ++ ["AI Analysis: Pattern matches historical high-risk cases"])
      else acc) = acc
    rw [if_neg h01]
  have hts : totalScore vitals (.ok (runOfflineModel vitals)) =
      (deterministicRules vitals).1 := by
    unfold totalScore
    rw [hai]
  have hrw : assessPatientRiskDefault vitals =
      finalAssessment (deterministicRules vitals).1 (deterministicRules vitals).2 := by
    unfold assessPatientRiskDefault
    rw [assessPatientRisk_eq, hts, hai]
  have hne : (assessPatientRiskDefault vitals).riskLevel ≠ RiskLevel.MEDIUM := by
    rw [hrw, finalAssessment_riskLevel]
    rcases deterministicRules_fst_cases vitals with h | h | h | h | h | h | h | h <;>
      rw [h] <;> decide
  refine ⟨hne, ?_, ?_⟩
  · cases hrl : (assessPatientRiskDefault vitals).riskLevel with
    | LOW => decide
    | MEDIUM => exact absurd hrl hne
    | HIGH => decide
    | CRITICAL => decide
  · rw [hts]
    rcases deterministicRules_fst_cases vitals with h | h | h | h | h | h | h | h <;>
      rw [h] <;> decide

end NatalCare
